import Mathlib

/-!
# MedCP server: verification of the query safety gate and tool registry

Shallow embedding of `server/main.py` (MedCP — Medical Context Protocol
Server).  Query text is modelled as `String` / `List Char`; the Python
regular-expression checks (`re.search` with `\b`, `\s`, `\w`, `re.IGNORECASE`)
are embedded as executable character-list scanners with the ASCII semantics of
those character classes (`\w` = letters, digits, underscore; `\s` = the six
ASCII whitespace characters; case folding on the 26 ASCII letters).  All
query texts handled by the server are SQL / Cypher, i.e. ASCII, so this is the
semantics actually exercised.
-/

namespace MedCP

/-- ASCII whitespace, the characters Python's `str.strip` and `\s` treat as
whitespace on ASCII text: space, tab, newline, carriage return, vertical tab,
form feed. -/
def isSpace (c : Char) : Bool :=
  c = ' ' || c = '\t' || c = '\n' || c = '\r' || c = '\x0b' || c = '\x0c'

/-- Regex word character `\w` on ASCII text: letter, digit, or underscore.
Note that the underscore counts as a word character, which matters for the
`SP_` alternative of the write-query pattern. -/
def isWordChar (c : Char) : Bool :=
  ('A' ≤ c && c ≤ 'Z') || ('a' ≤ c && c ≤ 'z') || ('0' ≤ c && c ≤ '9') || c = '_'

/-- ASCII uppercasing of a single character (Python `str.upper` restricted to
ASCII).  Written as an explicit table so that every per-character fact is
provable by case analysis. -/
def upChar (c : Char) : Char :=
  match c with
  | 'a' => 'A' | 'b' => 'B' | 'c' => 'C' | 'd' => 'D' | 'e' => 'E' | 'f' => 'F'
  | 'g' => 'G' | 'h' => 'H' | 'i' => 'I' | 'j' => 'J' | 'k' => 'K' | 'l' => 'L'
  | 'm' => 'M' | 'n' => 'N' | 'o' => 'O' | 'p' => 'P' | 'q' => 'Q' | 'r' => 'R'
  | 's' => 'S' | 't' => 'T' | 'u' => 'U' | 'v' => 'V' | 'w' => 'W' | 'x' => 'X'
  | 'y' => 'Y' | 'z' => 'Z'
  | c => c

/-- Uppercase a character list (Python `str.upper` on ASCII text). -/
def upper (l : List Char) : List Char := l.map upChar

/-- Python `str.strip()` on ASCII text: drop leading and trailing whitespace. -/
def strip (l : List Char) : List Char :=
  ((l.dropWhile isSpace).reverse.dropWhile isSpace).reverse

/-!
## Write-Intent Classifier (`_is_write_query`, main.py lines 69–71)

The source is
`re.search(r"\b(MERGE|CREATE|SET|DELETE|REMOVE|ADD|INSERT|UPDATE|DROP|ALTER|TRUNCATE|GRANT|REVOKE|EXEC|EXECUTE|SP_)\b", query, re.IGNORECASE) is not None`.
Every alternative consists of word characters only, so the leading `\b`
demands that the character before the match (if any) is a non-word character,
and the trailing `\b` demands that the character after the match (if any) is a
non-word character.  `re.IGNORECASE` is embedded by uppercasing the scanned
text characters before comparing with the (uppercase) pattern literals.
-/

/-- The fixed vocabulary of mutating keywords of `_is_write_query`. -/
def writeKeywords : List String :=
  ["MERGE", "CREATE", "SET", "DELETE", "REMOVE", "ADD", "INSERT", "UPDATE",
   "DROP", "ALTER", "TRUNCATE", "GRANT", "REVOKE", "EXEC", "EXECUTE", "SP_"]

/-- `true` iff position `j` of `text` is the end of the text or holds a
non-word character — the condition the regex boundary `\b` imposes on the
character following a match of word characters. -/
def nonWordAt (text : List Char) (j : Nat) : Bool :=
  match text[j]? with
  | none => true
  | some c => !isWordChar c

/-- The pattern `\bKW\b` (for a keyword made of word characters) matches
`text` at offset `i`, case-insensitively. -/
def matchesWordAt (kw : List Char) (text : List Char) (i : Nat) : Bool :=
  upper ((text.drop i).take kw.length) = kw
    && (i = 0 || nonWordAt text (i - 1))
    && nonWordAt text (i + kw.length)

/-- `re.search(\bKW\b, text, re.IGNORECASE) is not None`: some offset of
`text` starts a whole-word occurrence of `kw`. -/
def containsWholeWord (kw : List Char) (text : List Char) : Bool :=
  (List.range (text.length + 1)).any fun i => matchesWordAt kw text i

/-- `_is_write_query` (main.py lines 69–71): the query text contains one of
the mutating keywords as a regex whole word, case-insensitively. -/
def _is_write_query (query : String) : Bool :=
  writeKeywords.any fun kw => containsWholeWord kw.data query.data

/-!
## Clinical Query Validator (main.py lines 74–98)
-/

/-- The statement prefixes `is_read_only_clinical_query` allows
(main.py line 82). -/
def allowed_statements : List String := ["SELECT", "WITH", "DECLARE"]

/-- Scanner for the part of the pattern `;\s*\w+` that follows the semicolon:
zero or more whitespace characters, then at least one word character. -/
def chainFrom : List Char → Bool
  | [] => false
  | c :: cs => isWordChar c || (isSpace c && chainFrom cs)

/-- `re.search(r";\s*\w+", text) is not None`: somewhere in `text` a
semicolon is followed, after optional whitespace, by a word character. -/
def hasChain : List Char → Bool
  | [] => false
  | c :: cs => (c = ';' && chainFrom cs) || hasChain cs

/-- `query.strip().upper()` (main.py line 79). -/
def cleanQuery (q : List Char) : List Char := upper (strip q)

/-- `any(clean_query.startswith(stmt) for stmt in allowed_statements)`
(main.py line 85). -/
def startsWithAllowed (l : List Char) : Bool :=
  allowed_statements.any fun s => s.data.isPrefixOf l

/-- `ClinicalQueryValidator.is_read_only_clinical_query` (main.py
lines 77–98): prefix allow-list on the stripped, uppercased text, then the
shared write-intent check on the original text, then the statement-chaining
guard `;\s*\w+` on the stripped, uppercased text. -/
def ClinicalQueryValidator.is_read_only_clinical_query (query : String) : Bool :=
  let clean_query := cleanQuery query.data
  if !startsWithAllowed clean_query then false
  else if _is_write_query query then false
  else if hasChain clean_query then false
  else true

/-!
## Namespace prefixing (`_format_namespace`, main.py lines 50–54)
-/

/-- `_format_namespace` on character lists: empty stays empty; otherwise the
input is returned unchanged when it already ends with a dash, else a dash is
appended (Python `namespace.endswith("-")`, `namespace + "-"`). -/
def formatNamespaceChars (l : List Char) : List Char :=
  if l = [] then []
  else if l.getLast? = some '-' then l
  else l ++ ['-']

/-- `_format_namespace` (main.py lines 50–54). -/
def _format_namespace (namespace_ : String) : String :=
  ⟨formatNamespaceChars namespace_.data⟩

/-- Number of consecutive dashes at the end of a string (to state the
"exactly one trailing dash" property). -/
def trailingDashCount (s : String) : Nat :=
  (s.data.reverse.takeWhile fun c => c = '-').length

/-!
## Schema Normalizer (`clean_schema`, main.py lines 162–218)

The raw schema returned by the graph's metadata introspection is a nested
dictionary.  The embedding is payload-agnostic: leaf values (counts, type
names, indexed flags, label elements) live in an arbitrary type `α`, presence
of an optional dictionary key is an `Option`, and dictionary keys not
inspected by `clean_schema` are collected in an `extra` association list
(which the cleaning discards).  `labels` values are lists, since the code
tests their Python truthiness (`entry["labels"]` nonempty).
-/

/-- A property-information dictionary (`pinfo` / `rpinfo` in the source):
the `indexed` and `type` keys that the cleaning keeps, plus the verbose
introspection attributes it discards. -/
structure PropInfo (α : Type) where
  indexed : Option α
  type : Option α
  extra : List (String × α)
deriving DecidableEq

/-- A relationship entry (`rel` in the source). -/
structure RelInfo (α : Type) where
  direction : Option α
  labels : Option (List α)
  properties : Option (List (String × PropInfo α))
  extra : List (String × α)
deriving DecidableEq

/-- A top-level schema entry: the required `type` tag plus the optional
`count`, `labels`, `properties`, `relationships` keys. -/
structure SchemaEntry (α : Type) where
  type : α
  count : Option α
  labels : Option (List α)
  properties : Option (List (String × PropInfo α))
  relationships : Option (List (String × RelInfo α))
  extra : List (String × α)
deriving DecidableEq

/-- A raw or cleaned schema: label → entry, in dictionary order. -/
def Schema (α : Type) : Type := List (String × SchemaEntry α)

/-- `cp = {attr: pinfo[attr] for attr in ["indexed", "type"] if attr in pinfo}`
(main.py lines 178–181): keep only the `indexed` and `type` attributes. -/
def cleanPropInfo {α : Type} (p : PropInfo α) : PropInfo α :=
  ⟨p.indexed, p.type, []⟩

/-- One iteration of the property-cleaning loop (main.py lines 177–183):
build `cp` from the `indexed` and `type` attributes; `if cp:` keep it, i.e.
the cleaned property dict is kept only when `indexed` or `type` was
present. -/
def propStep {α : Type} (np : String × PropInfo α) :
    Option (String × PropInfo α) :=
  if np.2.indexed.isSome || np.2.type.isSome then some (np.1, cleanPropInfo np.2)
  else none

/-- The full property-cleaning loop `clean_props`. -/
def cleanProps {α : Type} (ps : List (String × PropInfo α)) :
    List (String × PropInfo α) :=
  ps.filterMap propStep

/-- `if clean_props: new_entry["properties"] = clean_props`
(main.py lines 184–185): the `properties` key survives only when some
property survived. -/
def cleanPropsOpt {α : Type} (o : Option (List (String × PropInfo α))) :
    Option (List (String × PropInfo α)) :=
  match o with
  | none => none
  | some ps => if (cleanProps ps).isEmpty then none else some (cleanProps ps)

/-- `if "labels" in entry and entry["labels"]` (main.py lines 171, 194):
the `labels` key survives only when present and (truthily) nonempty. -/
def cleanLabels {α : Type} (o : Option (List α)) : Option (List α) :=
  match o with
  | none => none
  | some l => if l.isEmpty then none else some l

/-- The cleaned relationship dict `cr` (main.py lines 191–208): `direction`
if present, `labels` if present and nonempty, cleaned `properties` if any
property survived; all other keys dropped. -/
def cleanRelInfo {α : Type} (r : RelInfo α) : RelInfo α :=
  ⟨r.direction, cleanLabels r.labels, cleanPropsOpt r.properties, []⟩

/-- One iteration of the relationship-cleaning loop (main.py lines 190–211):
build `cr`, then `if cr: rels_out[rel_name] = cr` — a relationship is kept
only when its cleaned dict is nonempty. -/
def relStep {α : Type} (nr : String × RelInfo α) :
    Option (String × RelInfo α) :=
  let c := cleanRelInfo nr.2
  if c.direction.isSome || c.labels.isSome || c.properties.isSome then
    some (nr.1, c)
  else none

/-- The full relationship-cleaning loop `rels_out`. -/
def cleanRels {α : Type} (rs : List (String × RelInfo α)) :
    List (String × RelInfo α) :=
  rs.filterMap relStep

/-- `if rels_out: new_entry["relationships"] = rels_out`
(main.py lines 213–214). -/
def cleanRelsOpt {α : Type} (o : Option (List (String × RelInfo α))) :
    Option (List (String × RelInfo α)) :=
  match o with
  | none => none
  | some rs => if (cleanRels rs).isEmpty then none else some (cleanRels rs)

/-- One pass of the entry-cleaning loop body (main.py lines 165–216):
`type` always kept, `count` kept when present, `labels` kept when present and
nonempty, properties and relationships cleaned recursively, everything else
dropped. -/
def cleanEntry {α : Type} (e : SchemaEntry α) : SchemaEntry α :=
  ⟨e.type, e.count, cleanLabels e.labels, cleanPropsOpt e.properties,
   cleanRelsOpt e.relationships, []⟩

/-- `clean_schema` (main.py lines 162–218): every key of the input appears in
the output, mapped to its cleaned entry, in order. -/
def clean_schema {α : Type} (schema : Schema α) : Schema α :=
  schema.map fun ke => (ke.1, cleanEntry ke.2)

/-!
## Configuration model (main.py lines 26–47)
-/

/-- `KnowledgeGraphConfig` (main.py lines 26–31). -/
structure KnowledgeGraphConfig where
  uri : String
  username : String
  password : String
  database : String
deriving DecidableEq

/-- `ClinicalRecordsConfig` (main.py lines 34–39). -/
structure ClinicalRecordsConfig where
  server : String
  database : String
  username : String
  password : String
deriving DecidableEq

/-- `MedCPConfig` (main.py lines 42–47). -/
structure MedCPConfig where
  knowledge_graph : Option KnowledgeGraphConfig
  clinical_records : Option ClinicalRecordsConfig
  namespace_ : String
  log_level : String
deriving DecidableEq

/-!
## Tool handlers and server construction (main.py lines 101–375)

The database drivers are external collaborators; they are modelled as
oracles.  The graph backend is a function from the query text and parameters
to either the serialized JSON record list (as produced by
`_read_knowledge_graph`) or a backend error message.  The clinical backend is
a connection attempt that either fails or yields a connection whose cursor
maps an executed SQL text to either an error or a pair of the reported column
names (`desc[0]` of each `cursor.description` entry) and the fetched rows,
each cell already rendered by Python `str`.  Each handler also returns the
trace of backend acquisitions it performed, so that "zero backend
interaction" is a statement about the model.
-/

/-- A raised `fastmcp.exceptions.ToolError`, carrying its message. -/
structure ToolError where
  message : String
deriving DecidableEq

/-- Backend acquisitions a handler can perform: opening a graph session
(`kg_driver.session(...)`) or a clinical database connection
(`pymssql.connect(...)`). -/
inductive BackendEffect where
  | graphSession
  | clinicalConnection
deriving DecidableEq

/-- Cypher query parameters (payloads opaque, rendered as strings). -/
def Params : Type := List (String × String)

/-- Oracle for the graph backend: `session.execute_read(_read_knowledge_graph,
cypher_query, parameters)` either returns the serialized records or raises a
backend error. -/
structure GraphBackend where
  run : String → Params → Except String String

/-- Oracle for one clinical connection: `cursor.execute(sql)` followed by
reading `cursor.description` (column names) and `cursor.fetchall()` (rows,
cells rendered by `str`). -/
structure ClinicalConn where
  exec : String → Except String (List String × List (List String))

/-- Oracle for the clinical backend: `get_clinical_records_connection`
(main.py lines 126–140) either fails or yields a connection. -/
structure ClinicalBackend where
  connect : Except String ClinicalConn

/-- The CSV serialization of main.py lines 310–315: when at least one column
is reported, a header row of the column names joined by commas followed by
one comma-joined row per record; otherwise the fixed success string. -/
def formatClinicalResult (columns : List String) (rows : List (List String)) :
    String :=
  if columns.isEmpty then "Clinical query executed successfully (no results returned)"
  else
    String.intercalate "\n"
      (String.intercalate "," columns :: rows.map fun row => String.intercalate "," row)

/-- The `query_knowledge_graph` tool handler (main.py lines 252–274): reject
write-classified Cypher before opening a session; otherwise open a session,
execute the read transaction and return its serialized records, wrapping any
backend error in a `ToolError`. -/
def query_knowledge_graph (g : GraphBackend) (cypher_query : String)
    (parameters : Params) : Except ToolError String × List BackendEffect :=
  if _is_write_query cypher_query then
    (.error ⟨"Only read queries (MATCH, RETURN, etc.) are allowed for knowledge graph queries"⟩, [])
  else
    match g.run cypher_query parameters with
    | .ok results_json_str => (.ok results_json_str, [.graphSession])
    | .error e => (.error ⟨"Biomedical knowledge graph error: " ++ e⟩, [.graphSession])

/-- The `query_clinical_records` tool handler (main.py lines 289–326): reject
SQL that fails the Clinical Query Validator before any connection is opened;
otherwise connect, execute, and serialize the cursor output as CSV, wrapping
any connection or execution error in a `ToolError`. -/
def query_clinical_records (cb : ClinicalBackend) (sql_query : String) :
    Except ToolError String × List BackendEffect :=
  if !ClinicalQueryValidator.is_read_only_clinical_query sql_query then
    (.error ⟨"Only SELECT queries are allowed for clinical record queries"⟩, [])
  else
    match cb.connect with
    | .error e =>
        (.error ⟨"Electronic health records error: Clinical records connection failed: " ++ e⟩,
         [.clinicalConnection])
    | .ok conn =>
        match conn.exec sql_query with
        | .error e =>
            (.error ⟨"Electronic health records error: " ++ e⟩, [.clinicalConnection])
        | .ok cr =>
            (.ok (formatClinicalResult cr.1 cr.2), [.clinicalConnection])

/-- The constructed server, abstracted to what the Tool Registry exposes: the
list of registered (namespace-prefixed) tool names, in registration order. -/
structure ServerModel where
  tools : List String
deriving DecidableEq

/-- The two graph tool names registered at main.py lines 146 and 243, under a
formatted namespace prefix `p`. -/
def graphToolNames (p : String) : List String :=
  [p ++ "get_knowledge_graph_schema", p ++ "query_knowledge_graph"]

/-- The two clinical tool names registered at main.py lines 280 and 329,
under a formatted namespace prefix `p`. -/
def clinicalToolNames (p : String) : List String :=
  [p ++ "query_clinical_records", p ++ "list_clinical_tables"]

/-- `create_medcp_server` (main.py lines 101–375).  `driverErr` is the oracle
for `GraphDatabase.driver(...)`: `none` when driver construction succeeds,
`some e` when it raises with message `e`.  It is consulted only when a
knowledge-graph config is present; a failure is re-raised as a `ToolError`
(main.py line 121), so no server is produced.  Graph tools are registered
iff a driver was constructed (`if kg_driver:` line 143); clinical tools are
registered iff a clinical config is present (`if clinical_config:` line 277),
with no connection attempted at registration time. -/
def create_medcp_server (config : MedCPConfig) (driverErr : Option String) :
    Except ToolError ServerModel :=
  let p := _format_namespace config.namespace_
  match config.knowledge_graph with
  | some _ =>
      match driverErr with
      | some e => .error ⟨"Knowledge graph initialization failed: " ++ e⟩
      | none =>
          .ok ⟨graphToolNames p ++
               (if config.clinical_records.isSome then clinicalToolNames p else [])⟩
  | none =>
      .ok ⟨if config.clinical_records.isSome then clinicalToolNames p else []⟩

/-!
## `main` (main.py lines 378–429)

Python truthiness on the optional string arguments: `None` and the empty
string are falsy.  The config dict gets a `knowledge_graph` entry iff the
URI, username and password are all truthy, and a `clinical_records` entry iff
server, database, username and password are all truthy; with neither entry,
`main` raises `ValueError` before any server is constructed.
-/

/-- Errors `main` can surface: the startup `ValueError` (main.py line 419) or
a `ToolError` escaping server construction. -/
inductive MainError where
  | valueError (msg : String)
  | toolError (e : ToolError)
deriving DecidableEq

/-- Python truthiness of an `Optional[str]` argument. -/
def truthy (o : Option String) : Bool :=
  match o with
  | none => false
  | some s => !s.isEmpty

/-- `main` (main.py lines 378–429), up to the construction of the server
(`mcp.run()` — the transport loop — is outside the model).  `driverErr` is
the driver-construction oracle passed through to `create_medcp_server`.
The `database` field of the knowledge-graph config defaults to `"neo4j"`
when absent (the pydantic field default, main.py line 31). -/
def main (driverErr : Option String)
    (knowledge_graph_uri knowledge_graph_username knowledge_graph_password
     knowledge_graph_database : Option String)
    (clinical_records_server clinical_records_database
     clinical_records_username clinical_records_password : Option String)
    (namespace_ : String) (log_level : String) :
    Except MainError ServerModel :=
  let kg : Option KnowledgeGraphConfig :=
    if truthy knowledge_graph_uri && truthy knowledge_graph_username &&
       truthy knowledge_graph_password then
      some ⟨knowledge_graph_uri.getD "", knowledge_graph_username.getD "",
            knowledge_graph_password.getD "", knowledge_graph_database.getD "neo4j"⟩
    else none
  let cr : Option ClinicalRecordsConfig :=
    if truthy clinical_records_server && truthy clinical_records_database &&
       truthy clinical_records_username && truthy clinical_records_password then
      some ⟨clinical_records_server.getD "", clinical_records_database.getD "",
            clinical_records_username.getD "", clinical_records_password.getD ""⟩
    else none
  if kg.isNone && cr.isNone then
    .error (.valueError "At least one database (knowledge graph or clinical records) must be configured")
  else
    match create_medcp_server ⟨kg, cr, namespace_, log_level⟩ driverErr with
    | .ok s => .ok s
    | .error e => .error (.toolError e)

/-!
## Claim-side predicates (stated from the spec's words, for comparison with
the source-derived definitions above)
-/

/-- Stated from the claim's words, not from the source: the text contains an
occurrence of `SP_` (case-insensitively) beginning an identifier, i.e. an
occurrence preceded by a non-word character or the start of the text, with no
condition on what follows — so it covers `sp_help`. -/
def claimSpIdent (text : List Char) : Bool :=
  (List.range (text.length + 1)).any fun i =>
    upper ((text.drop i).take 3) = ['S', 'P', '_']
      && (i = 0 || nonWordAt text (i - 1))

/-- Stated from the claim's words, not from the source: `_is_write_query` as
the claim describes it — one of the fifteen letter keywords as a whole word
anywhere, or the stored-procedure prefix `SP_` beginning an identifier. -/
def claimWriteQuery (query : String) : Bool :=
  ((writeKeywords.take 15).any fun kw => containsWholeWord kw.data query.data)
    || claimSpIdent query.data

/-- `l` starts with the whole word `kw`: `kw` is a prefix of `l` and is not
immediately followed by a further word character (for stating what the
prefix check of the Clinical Query Validator does *not* test). -/
def startsWithWholeWord (kw : List Char) (l : List Char) : Bool :=
  kw.isPrefixOf l && nonWordAt l kw.length

/-!
## Concrete oracles used to witness the handler theorems
-/

/-- A graph backend that answers every query with an empty record list. -/
def gEx : GraphBackend := ⟨fun _ _ => .ok "[]"⟩

/-- A clinical connection whose cursor reports two columns and two rows for
every query. -/
def connEx : ClinicalConn := ⟨fun _ => .ok (["a", "b"], [["1", "2"], ["3", "4"]])⟩

/-- A clinical backend whose connection always succeeds, yielding `connEx`. -/
def cbEx : ClinicalBackend := ⟨.ok connEx⟩

/-- A clinical connection whose cursor reports no columns (a statement whose
response carries no result-set description). -/
def connExNoCols : ClinicalConn := ⟨fun _ => .ok ([], [])⟩

/-- A clinical backend whose connection always succeeds, yielding
`connExNoCols`. -/
def cbExNoCols : ClinicalBackend := ⟨.ok connExNoCols⟩

/-- A concrete knowledge-graph configuration. -/
def kgCfgEx : KnowledgeGraphConfig :=
  ⟨"bolt://localhost:7687", "neo4j", "secret", "neo4j"⟩

/-!
## Helper lemmas: character classes under ASCII uppercasing
-/

theorem isSpace_upChar (c : Char) : isSpace (upChar c) = isSpace c := by
  unfold upChar
  split <;> rfl

theorem isWordChar_upChar (c : Char) : isWordChar (upChar c) = isWordChar c := by
  unfold upChar
  split <;> rfl

theorem upChar_eq_semi (c : Char) : (upChar c = ';') ↔ (c = ';') := by
  unfold upChar
  split <;> simp_all

theorem not_wordChar_of_isSpace {c : Char} (h : isSpace c = true) :
    isWordChar c = false := by
  simp only [isSpace, Bool.or_eq_true, decide_eq_true_eq] at h
  rcases h with ((((h | h) | h) | h) | h) | h <;> subst h <;> rfl

theorem ne_semi_of_isSpace {c : Char} (h : isSpace c = true) : c ≠ ';' := by
  simp only [isSpace, Bool.or_eq_true, decide_eq_true_eq] at h
  rcases h with ((((h | h) | h) | h) | h) | h <;> subst h <;> decide

/-!
## Helper lemmas: the chaining guard `;\s*\w+` is stable under the
normalization `strip`/`upper` that precedes it
-/

theorem chainFrom_upper (l : List Char) : chainFrom (upper l) = chainFrom l := by
  induction l with
  | nil => rfl
  | cons c cs ih =>
      simp only [upper, List.map_cons, chainFrom, isWordChar_upChar, isSpace_upChar]
      rw [← upper, ih]

theorem hasChain_upper (l : List Char) : hasChain (upper l) = hasChain l := by
  induction l with
  | nil => rfl
  | cons c cs ih =>
      simp only [upper, List.map_cons, hasChain]
      rw [← upper, chainFrom_upper, ih]
      congr 1
      congr 1
      exact decide_eq_decide.mpr (upChar_eq_semi c)

theorem chainFrom_allSpace {ws : List Char} (h : ∀ c ∈ ws, isSpace c = true) :
    chainFrom ws = false := by
  induction ws with
  | nil => rfl
  | cons c cs ih =>
      have hc : isSpace c = true := h c (List.mem_cons_self c cs)
      simp only [chainFrom, not_wordChar_of_isSpace hc, hc, Bool.false_or,
        Bool.true_and]
      exact ih fun d hd => h d (List.mem_cons_of_mem c hd)

theorem hasChain_allSpace {ws : List Char} (h : ∀ c ∈ ws, isSpace c = true) :
    hasChain ws = false := by
  induction ws with
  | nil => rfl
  | cons c cs ih =>
      have hc : isSpace c = true := h c (List.mem_cons_self c cs)
      simp only [hasChain, decide_eq_true_eq]
      rw [decide_eq_false (ne_semi_of_isSpace hc)]
      simp only [Bool.false_and, Bool.false_or]
      exact ih fun d hd => h d (List.mem_cons_of_mem c hd)

theorem chainFrom_append_space {ws : List Char} (h : ∀ c ∈ ws, isSpace c = true)
    (xs : List Char) : chainFrom (xs ++ ws) = chainFrom xs := by
  induction xs with
  | nil => simpa using chainFrom_allSpace h
  | cons c cs ih => simp only [List.cons_append, chainFrom, List.append_eq, ih]

theorem hasChain_append_space {ws : List Char} (h : ∀ c ∈ ws, isSpace c = true)
    (xs : List Char) : hasChain (xs ++ ws) = hasChain xs := by
  induction xs with
  | nil => simpa using hasChain_allSpace h
  | cons c cs ih =>
      simp only [List.cons_append, hasChain, List.append_eq, ih,
        chainFrom_append_space h]

theorem hasChain_dropWhile_space (l : List Char) :
    hasChain (l.dropWhile isSpace) = hasChain l := by
  induction l with
  | nil => rfl
  | cons c cs ih =>
      by_cases hc : isSpace c = true
      · rw [List.dropWhile_cons_of_pos hc, ih]
        simp only [hasChain]
        rw [decide_eq_false (ne_semi_of_isSpace hc)]
        simp
      · rw [List.dropWhile_cons_of_neg hc]

theorem hasChain_strip (l : List Char) : hasChain (strip l) = hasChain l := by
  unfold strip
  set m := l.dropWhile isSpace with hm
  have hdecomp : m = (m.reverse.dropWhile isSpace).reverse ++
      (m.reverse.takeWhile isSpace).reverse := by
    conv_lhs => rw [← List.reverse_reverse m,
      ← List.takeWhile_append_dropWhile isSpace m.reverse]
    rw [List.reverse_append]
  have hws : ∀ c ∈ (m.reverse.takeWhile isSpace).reverse, isSpace c = true := by
    intro c hc
    exact List.mem_takeWhile_imp (List.mem_reverse.mp hc)
  calc hasChain (m.reverse.dropWhile isSpace).reverse
      = hasChain ((m.reverse.dropWhile isSpace).reverse ++
          (m.reverse.takeWhile isSpace).reverse) := (hasChain_append_space hws _).symm
    _ = hasChain m := by rw [← hdecomp]
    _ = hasChain l := hasChain_dropWhile_space l

theorem hasChain_cleanQuery (q : List Char) :
    hasChain (cleanQuery q) = hasChain q := by
  unfold cleanQuery
  rw [hasChain_upper, hasChain_strip]

/-- If the only semicolon of a text is its last character, the chaining
pattern `;\s*\w+` finds no match. -/
theorem hasChain_single_trailing_semi :
    ∀ {l : List Char}, l.getLast? = some ';' → l.count ';' = 1 →
      hasChain l = false := by
  intro l
  induction l with
  | nil => intro h; simp at h
  | cons c cs ih =>
      intro hlast hcount
      by_cases hc : c = ';'
      · subst hc
        cases cs with
        | nil => rfl
        | cons d ds =>
            exfalso
            rw [List.getLast?_cons_cons] at hlast
            have hmem : ';' ∈ d :: ds := List.mem_of_mem_getLast? hlast
            have hpos : 0 < (d :: ds).count ';' := List.count_pos_iff.mpr hmem
            rw [List.count_cons] at hcount
            simp at hcount
            omega
      · cases cs with
        | nil =>
            exfalso
            simp only [List.getLast?_singleton, Option.some.injEq] at hlast
            exact hc hlast
        | cons d ds =>
            rw [List.getLast?_cons_cons] at hlast
            have hcount' : (d :: ds).count ';' = 1 := by
              rw [List.count_cons] at hcount
              simpa [hc] using hcount
            simp only [hasChain, decide_eq_false hc, Bool.false_and, Bool.false_or]
            exact ih hlast hcount'

/-!
## Claims C3, C4, C10: the Clinical Query Validator
-/

/-- C3: for every query string whose whitespace-trimmed, uppercased form does
not start with `SELECT`, `WITH`, or `DECLARE`,
`ClinicalQueryValidator.is_read_only_clinical_query` returns `false`; in
particular (see the witness) it returns `false` for the empty string. -/
theorem C3_prefix_allow_list (q : String)
    (h : startsWithAllowed (cleanQuery q.data) = false) :
    ClinicalQueryValidator.is_read_only_clinical_query q = false := by
  unfold ClinicalQueryValidator.is_read_only_clinical_query
  simp [h]

/-- C3 witness: the empty string fails the prefix check, and the validator
rejects it. -/
theorem C3_prefix_allow_list_witness :
    startsWithAllowed (cleanQuery ("" : String).data) = false ∧
    ClinicalQueryValidator.is_read_only_clinical_query "" = false :=
  ⟨by decide, C3_prefix_allow_list "" (by decide)⟩

/-- C4: every query string containing a semicolon followed, after optional
whitespace, by a word token is rejected by
`ClinicalQueryValidator.is_read_only_clinical_query`; and a query that passes
the prefix and write-intent checks and whose trimmed, uppercased form ends in
a single trailing semicolon (its only semicolon, with no following token) is
accepted. -/
theorem C4_statement_chaining_guard :
    (∀ q : String, hasChain q.data = true →
      ClinicalQueryValidator.is_read_only_clinical_query q = false) ∧
    (∀ q : String, startsWithAllowed (cleanQuery q.data) = true →
      _is_write_query q = false →
      (cleanQuery q.data).getLast? = some ';' →
      (cleanQuery q.data).count ';' = 1 →
      ClinicalQueryValidator.is_read_only_clinical_query q = true) := by
  constructor
  · intro q h
    have h2 : hasChain (cleanQuery q.data) = true := by
      rw [hasChain_cleanQuery]; exact h
    unfold ClinicalQueryValidator.is_read_only_clinical_query
    simp only [h2, Bool.not_eq_true]
    split <;> simp
  · intro q h1 h2 h3 h4
    have h5 : hasChain (cleanQuery q.data) = false :=
      hasChain_single_trailing_semi h3 h4
    unfold ClinicalQueryValidator.is_read_only_clinical_query
    simp [h1, h2, h5]

/-- C4 witness: `SELECT 1; X` (semicolon followed by a word token) is
rejected; `SELECT 1;` (single trailing semicolon) is accepted. -/
theorem C4_statement_chaining_guard_witness :
    ClinicalQueryValidator.is_read_only_clinical_query "SELECT 1; X" = false ∧
    ClinicalQueryValidator.is_read_only_clinical_query "SELECT 1;" = true :=
  ⟨C4_statement_chaining_guard.1 "SELECT 1; X" (by decide),
   C4_statement_chaining_guard.2 "SELECT 1;" (by decide) (by decide)
     (by decide) (by decide)⟩

/-- C10: the statement-prefix check of `is_read_only_clinical_query` is a
plain string-prefix test, not a whole-word test: `WITHOUT x` is accepted even
though its first token merely begins with the allowed keyword `WITH` — no
allowed keyword occurs at the start of the cleaned text as a whole word. -/
theorem C10_prefix_check_not_whole_word :
    ClinicalQueryValidator.is_read_only_clinical_query "WITHOUT x" = true ∧
    ∀ kw ∈ allowed_statements,
      startsWithWholeWord kw.data (cleanQuery ("WITHOUT x" : String).data) = false := by
  decide

/-!
## Claim C2: the Write-Intent Classifier
-/

/-- C2 counterexample: the claim asserts `_is_write_query` flags any text in
which `SP_` begins an identifier, giving `sp_help` as an example — but the
regex boundary `\b` after `SP_` requires a non-word character, and the `h` of
`sp_help` is a word character, so the source returns `false` on `sp_help`
while the claim, as stated (`claimWriteQuery`), demands `true`. -/
theorem C2_write_intent_counterexample :
    claimWriteQuery "sp_help" = true ∧ _is_write_query "sp_help" = false := by
  constructor <;> decide

/-- C2 (amended): `_is_write_query text` returns `true` exactly when the text
contains one of the keywords MERGE, CREATE, SET, DELETE, REMOVE, ADD, INSERT,
UPDATE, DROP, ALTER, TRUNCATE, GRANT, REVOKE, EXEC, EXECUTE or SP_, in any
letter case, anywhere in the text (including inside string literals or
comments), delimited on both sides by a non-word character or a text
boundary — where the underscore counts as a word character, so `SP_` matches
only when the underscore is followed by a non-word character or the end of
the text, and not when it begins a longer identifier such as `sp_help`. -/
theorem C2_write_intent_whole_word (q : String) :
    _is_write_query q = true ↔
      ∃ kw ∈ writeKeywords, ∃ pre w post : List Char,
        q.data = pre ++ w ++ post ∧ upper w = kw.data ∧
        (pre = [] ∨ ∃ c, pre.getLast? = some c ∧ isWordChar c = false) ∧
        (post = [] ∨ ∃ c, post.head? = some c ∧ isWordChar c = false) := by
  have hkwne : ∀ kw ∈ writeKeywords, kw.data ≠ [] := by decide
  constructor
  · intro h
    unfold _is_write_query at h
    rw [List.any_eq_true] at h
    obtain ⟨kw, hkw, hcw⟩ := h
    unfold containsWholeWord at hcw
    rw [List.any_eq_true] at hcw
    obtain ⟨i, hi, hmatch⟩ := hcw
    rw [List.mem_range] at hi
    unfold matchesWordAt at hmatch
    simp only [Bool.and_eq_true, decide_eq_true_eq, Bool.or_eq_true] at hmatch
    obtain ⟨⟨hw, hb⟩, ha⟩ := hmatch
    refine ⟨kw, hkw, q.data.take i, (q.data.drop i).take kw.data.length,
      q.data.drop (i + kw.data.length), ?_, hw, ?_, ?_⟩
    · conv_lhs => rw [← List.take_append_drop i q.data,
        ← List.take_append_drop kw.data.length (q.data.drop i)]
      rw [List.drop_drop, List.append_assoc]
    · by_cases hi0 : i = 0
      · subst hi0; left; rfl
      · right
        rcases hb with hb | hb
        · exact absurd hb hi0
        · unfold nonWordAt at hb
          cases hnth : q.data[i - 1]? with
          | none =>
              exfalso
              have hlen : q.data.length ≤ i - 1 := List.getElem?_eq_none_iff.mp hnth
              have hdrop : q.data.drop i = [] := by
                rw [List.drop_eq_nil_iff]
                omega
              rw [hdrop, List.take_nil] at hw
              exact hkwne kw hkw (by simpa [upper] using hw.symm)
          | some c =>
              refine ⟨c, ?_, ?_⟩
              · rw [List.getLast?_eq_getElem?]
                have hilen : i ≤ q.data.length := by omega
                have hlen : (q.data.take i).length = i := by
                  rw [List.length_take]
                  omega
                rw [hlen, List.getElem?_take, if_pos (by omega)]
                exact hnth
              · rw [hnth] at hb
                simpa using hb
    · unfold nonWordAt at ha
      cases hnth : q.data[i + kw.data.length]? with
      | none =>
          left
          rw [List.drop_eq_nil_iff]
          exact List.getElem?_eq_none_iff.mp hnth
      | some c =>
          right
          refine ⟨c, ?_, ?_⟩
          · rw [List.head?_drop]
            exact hnth
          · rw [hnth] at ha
            simpa using ha
  · rintro ⟨kw, hkw, pre, w, post, hq, hw, hb, ha⟩
    have hlen : w.length = kw.data.length := by
      rw [← hw]
      simp [upper]
    unfold _is_write_query
    rw [List.any_eq_true]
    refine ⟨kw, hkw, ?_⟩
    unfold containsWholeWord
    rw [List.any_eq_true]
    have hqlen : q.data.length = pre.length + w.length + post.length := by
      rw [hq]
      simp [List.length_append]
      omega
    refine ⟨pre.length, List.mem_range.mpr (by omega), ?_⟩
    unfold matchesWordAt
    simp only [Bool.and_eq_true, decide_eq_true_eq, Bool.or_eq_true]
    refine ⟨⟨?_, ?_⟩, ?_⟩
    · rw [hq, List.append_assoc, List.drop_left, ← hlen, List.take_left]
      exact hw
    · rcases hb with hb | ⟨c, hlast, hcw⟩
      · left
        rw [hb]
        rfl
      · right
        have hpre : pre ≠ [] := by
          intro hnil
          rw [hnil] at hlast
          simp at hlast
        have hprelen : 0 < pre.length := List.length_pos.mpr hpre
        unfold nonWordAt
        have : q.data[pre.length - 1]? = some c := by
          rw [hq, List.append_assoc, List.getElem?_append, if_pos (by omega)]
          rw [List.getLast?_eq_getElem?] at hlast
          exact hlast
        rw [this]
        simp [hcw]
    · unfold nonWordAt
      have hidx : q.data[pre.length + kw.data.length]? = post[0]? := by
        rw [hq]
        have : (pre ++ w).length = pre.length + kw.data.length := by
          rw [List.length_append, hlen]
        rw [← this, List.getElem?_append_right (Nat.le_refl _), Nat.sub_self]
      rcases ha with ha | ⟨c, hhead, hcw⟩
      · rw [hidx, ha]
        rfl
      · rw [hidx, ← List.head?_eq_getElem?, hhead]
        simp [hcw]

/-!
## Claims C1, C8: the tool handlers
-/

/-- C1: for both ad-hoc query tools, a query text that fails the relevant
validator makes the handler return the typed `ToolError` with an empty
backend-acquisition trace (no session or connection was opened, no result
payload produced); and a result payload is produced only when the validator
accepted that exact query text. -/
theorem C1_validation_precedes_backend (g : GraphBackend) (cypher_query : String)
    (parameters : Params) (cb : ClinicalBackend) (sql_query : String) :
    (_is_write_query cypher_query = true →
      query_knowledge_graph g cypher_query parameters =
        (.error ⟨"Only read queries (MATCH, RETURN, etc.) are allowed for knowledge graph queries"⟩, [])) ∧
    (∀ r, (query_knowledge_graph g cypher_query parameters).1 = .ok r →
      _is_write_query cypher_query = false) ∧
    (ClinicalQueryValidator.is_read_only_clinical_query sql_query = false →
      query_clinical_records cb sql_query =
        (.error ⟨"Only SELECT queries are allowed for clinical record queries"⟩, [])) ∧
    (∀ r, (query_clinical_records cb sql_query).1 = .ok r →
      ClinicalQueryValidator.is_read_only_clinical_query sql_query = true) := by
  refine ⟨?_, ?_, ?_, ?_⟩
  · intro h
    simp [query_knowledge_graph, h]
  · intro r hr
    by_contra hne
    rw [Bool.not_eq_false] at hne
    simp [query_knowledge_graph, hne] at hr
  · intro h
    simp [query_clinical_records, h]
  · intro r hr
    by_contra hne
    rw [Bool.not_eq_true] at hne
    simp [query_clinical_records, hne] at hr

/-- C1 witness: a Cypher write (`CREATE (n)`) and a SQL write
(`DROP TABLE x`) are both rejected with the typed error and an empty
backend-acquisition trace. -/
theorem C1_validation_precedes_backend_witness :
    query_knowledge_graph gEx "CREATE (n)" [] =
      (.error ⟨"Only read queries (MATCH, RETURN, etc.) are allowed for knowledge graph queries"⟩, []) ∧
    query_clinical_records cbEx "DROP TABLE x" =
      (.error ⟨"Only SELECT queries are allowed for clinical record queries"⟩, []) :=
  ⟨(C1_validation_precedes_backend gEx "CREATE (n)" [] cbEx "DROP TABLE x").1
     (by decide),
   (C1_validation_precedes_backend gEx "CREATE (n)" [] cbEx "DROP TABLE x").2.2.1
     (by decide)⟩

/-- C8: a successful `query_clinical_records` call whose cursor reports at
least one column returns the CSV text consisting of the comma-joined header
row followed by one comma-joined row per fetched record, in record order;
with no reported column it returns the fixed success string. -/
theorem C8_clinical_csv_output (cb : ClinicalBackend) (conn : ClinicalConn)
    (sql_query : String) (cols : List String) (rows : List (List String))
    (hv : ClinicalQueryValidator.is_read_only_clinical_query sql_query = true)
    (hc : cb.connect = .ok conn)
    (he : conn.exec sql_query = .ok (cols, rows)) :
    (cols ≠ [] →
      (query_clinical_records cb sql_query).1 =
        .ok (String.intercalate "\n"
          (String.intercalate "," cols :: rows.map fun row => String.intercalate "," row))) ∧
    (cols = [] →
      (query_clinical_records cb sql_query).1 =
        .ok "Clinical query executed successfully (no results returned)") := by
  constructor
  · intro h
    simp [query_clinical_records, hv, hc, he, formatClinicalResult,
      List.isEmpty_iff, h]
  · intro h
    simp [query_clinical_records, hv, hc, he, formatClinicalResult,
      List.isEmpty_iff, h]

/-- C8 witness: against `cbEx` (columns `a`, `b`; rows `1,2` and `3,4`) a
validated query returns the CSV `a,b\n1,2\n3,4`; against `cbExNoCols`
(no columns) it returns the fixed success string. -/
theorem C8_clinical_csv_output_witness :
    (query_clinical_records cbEx "SELECT 1").1 = .ok "a,b\n1,2\n3,4" ∧
    (query_clinical_records cbExNoCols "SELECT 1").1 =
      .ok "Clinical query executed successfully (no results returned)" := by
  constructor
  · have h := (C8_clinical_csv_output cbEx connEx "SELECT 1" ["a", "b"]
      [["1", "2"], ["3", "4"]] (by decide) rfl rfl).1 (by decide)
    rw [h]
    rfl
  · exact (C8_clinical_csv_output cbExNoCols connExNoCols "SELECT 1" [] []
      (by decide) rfl rfl).2 rfl

/-!
## Claim C6: namespace prefixing
-/

/-- C6 counterexample: the claim asserts every nonempty result ends in
exactly one trailing dash "regardless of how the operator supplied the
namespace (including with extra trailing dashes)" — but `_format_namespace`
returns `foo--` unchanged, which ends in two dashes. -/
theorem C6_namespace_counterexample :
    _format_namespace "foo--" = "foo--" ∧
    trailingDashCount (_format_namespace "foo--") = 2 ∧
    trailingDashCount (_format_namespace "foo--") ≠ 1 := by
  decide

/-- C6 (amended): `_format_namespace` returns the empty string for empty
input and otherwise a string ending in *at least* one trailing dash (the
input unchanged when it already ends in a dash — so supplied extra trailing
dashes are kept — else the input with one dash appended); in particular
`foo` yields `foo-`, `foo-` yields `foo-`, and the empty string yields the
empty string. -/
theorem C6_namespace_format :
    _format_namespace "" = "" ∧
    (∀ ns : String, ns ≠ "" →
      (_format_namespace ns).data.getLast? = some '-') ∧
    _format_namespace "foo" = "foo-" ∧
    _format_namespace "foo-" = "foo-" := by
  refine ⟨by decide, ?_, by decide, by decide⟩
  intro ns h
  obtain ⟨l⟩ := ns
  have hl : l ≠ [] := by
    intro hnil
    subst hnil
    exact h rfl
  show (formatNamespaceChars l).getLast? = some '-'
  unfold formatNamespaceChars
  rw [if_neg hl]
  by_cases h2 : l.getLast? = some '-'
  · rw [if_pos h2]
    exact h2
  · rw [if_neg h2]
    exact List.getLast?_concat l

/-- C6 witness: `foo` is nonempty and its formatted namespace ends in a
dash. -/
theorem C6_namespace_format_witness :
    ("foo" : String) ≠ "" ∧ (_format_namespace "foo").data.getLast? = some '-' :=
  ⟨by decide, C6_namespace_format.2.1 "foo" (by decide)⟩

/-!
## Claim C7: the Schema Normalizer is idempotent
-/

theorem cleanLabels_idem {α : Type} (o : Option (List α)) :
    cleanLabels (cleanLabels o) = cleanLabels o := by
  cases o with
  | none => rfl
  | some l =>
      by_cases h : l.isEmpty
      · simp [cleanLabels, h]
      · simp [cleanLabels, h]

theorem propStep_fix {α : Type} {np q : String × PropInfo α}
    (h : propStep np = some q) : propStep q = some q := by
  unfold propStep at h ⊢
  by_cases hk : (np.2.indexed.isSome || np.2.type.isSome) = true
  · rw [if_pos hk] at h
    obtain rfl : (np.1, cleanPropInfo np.2) = q := Option.some.inj h
    simp [cleanPropInfo, hk]
  · rw [if_neg hk] at h
    exact absurd h (by simp)

theorem cleanProps_idem {α : Type} (ps : List (String × PropInfo α)) :
    cleanProps (cleanProps ps) = cleanProps ps := by
  induction ps with
  | nil => rfl
  | cons p ps ih =>
      unfold cleanProps at ih ⊢
      cases hstep : propStep p with
      | none => simpa [List.filterMap_cons, hstep] using ih
      | some q =>
          simp only [List.filterMap_cons, hstep, propStep_fix hstep]
          rw [ih]

theorem cleanPropsOpt_idem {α : Type} (o : Option (List (String × PropInfo α))) :
    cleanPropsOpt (cleanPropsOpt o) = cleanPropsOpt o := by
  cases o with
  | none => rfl
  | some ps =>
      by_cases h : (cleanProps ps).isEmpty
      · simp [cleanPropsOpt, h]
      · simp [cleanPropsOpt, h, cleanProps_idem]

theorem cleanRelInfo_idem {α : Type} (r : RelInfo α) :
    cleanRelInfo (cleanRelInfo r) = cleanRelInfo r := by
  simp [cleanRelInfo, cleanLabels_idem, cleanPropsOpt_idem]

theorem relStep_fix {α : Type} {nr q : String × RelInfo α}
    (h : relStep nr = some q) : relStep q = some q := by
  unfold relStep at h ⊢
  by_cases hk : ((cleanRelInfo nr.2).direction.isSome ||
      (cleanRelInfo nr.2).labels.isSome ||
      (cleanRelInfo nr.2).properties.isSome) = true
  · rw [if_pos hk] at h
    obtain rfl : (nr.1, cleanRelInfo nr.2) = q := Option.some.inj h
    simp only [cleanRelInfo_idem]
    rw [if_pos hk]
  · rw [if_neg hk] at h
    exact absurd h (by simp)

theorem cleanRels_idem {α : Type} (rs : List (String × RelInfo α)) :
    cleanRels (cleanRels rs) = cleanRels rs := by
  induction rs with
  | nil => rfl
  | cons r rs ih =>
      unfold cleanRels at ih ⊢
      cases hstep : relStep r with
      | none => simpa [List.filterMap_cons, hstep] using ih
      | some q =>
          simp only [List.filterMap_cons, hstep, relStep_fix hstep]
          rw [ih]

theorem cleanRelsOpt_idem {α : Type} (o : Option (List (String × RelInfo α))) :
    cleanRelsOpt (cleanRelsOpt o) = cleanRelsOpt o := by
  cases o with
  | none => rfl
  | some rs =>
      by_cases h : (cleanRels rs).isEmpty
      · simp [cleanRelsOpt, h]
      · simp [cleanRelsOpt, h, cleanRels_idem]

theorem cleanEntry_idem {α : Type} (e : SchemaEntry α) :
    cleanEntry (cleanEntry e) = cleanEntry e := by
  simp [cleanEntry, cleanLabels_idem, cleanPropsOpt_idem, cleanRelsOpt_idem]

/-- C7: the Schema Normalizer is idempotent — for every raw schema map in its
input domain (each entry carrying a type tag), cleaning the output of
`clean_schema` removes nothing further. -/
theorem C7_clean_schema_idempotent {α : Type} (schema : Schema α) :
    clean_schema (clean_schema schema) = clean_schema schema := by
  induction schema with
  | nil => rfl
  | cons ke m ih =>
      simp only [clean_schema, List.map_cons, List.map_map] at ih ⊢
      rw [cleanEntry_idem]
      exact congrArg _ ih

/-!
## Claims C5, C9: server construction and startup validation
-/

theorem string_append_left_cancel {p a b : String} (h : p ++ a = p ++ b) :
    a = b := by
  have hd : (p ++ a).data = (p ++ b).data := congrArg String.data h
  rw [String.data_append, String.data_append] at hd
  have hab := List.append_cancel_left hd
  cases a
  cases b
  exact congrArg String.mk hab

theorem graph_schema_name_not_clinical {p : String} :
    (p ++ "get_knowledge_graph_schema") ∉ clinicalToolNames p := by
  intro h
  simp only [clinicalToolNames, List.mem_cons, List.not_mem_nil, or_false] at h
  rcases h with h | h <;> exact absurd (string_append_left_cancel h) (by decide)

theorem graph_query_name_not_clinical {p : String} :
    (p ++ "query_knowledge_graph") ∉ clinicalToolNames p := by
  intro h
  simp only [clinicalToolNames, List.mem_cons, List.not_mem_nil, or_false] at h
  rcases h with h | h <;> exact absurd (string_append_left_cancel h) (by decide)

/-- C5 counterexample: the claim asserts that with a knowledge-graph config
present but driver construction failing, `create_medcp_server` still
completes and returns a server without the graph tools — but the source
re-raises the failure as a `ToolError` (main.py line 121), so server
construction itself fails and no server is returned. -/
theorem C5_driver_failure_counterexample :
    create_medcp_server ⟨some kgCfgEx, none, "", "INFO"⟩ (some "boom") =
      .error ⟨"Knowledge graph initialization failed: boom"⟩ := rfl

/-- C5 (amended): whenever `create_medcp_server` returns a server, the two
graph tools are registered in it iff a KnowledgeGraph config is present and
driver construction succeeded; and when the config is present but driver
construction fails, `create_medcp_server` raises a `ToolError` (so no server
is constructed) rather than returning a server without the graph tools. -/
theorem C5_graph_tools_registration (config : MedCPConfig)
    (driverErr : Option String) :
    (∀ s, create_medcp_server config driverErr = .ok s →
      (((_format_namespace config.namespace_ ++ "get_knowledge_graph_schema") ∈ s.tools ∧
        (_format_namespace config.namespace_ ++ "query_knowledge_graph") ∈ s.tools) ↔
       (config.knowledge_graph.isSome = true ∧ driverErr = none))) ∧
    (∀ e, config.knowledge_graph.isSome = true → driverErr = some e →
      create_medcp_server config driverErr =
        .error ⟨"Knowledge graph initialization failed: " ++ e⟩) := by
  constructor
  · intro s hok
    cases hkg : config.knowledge_graph with
    | none =>
        simp only [create_medcp_server, hkg, Except.ok.injEq] at hok
        constructor
        · rintro ⟨h1, _⟩
          exfalso
          rw [← hok] at h1
          by_cases hcr : config.clinical_records.isSome <;> simp [hcr] at h1
          exact graph_schema_name_not_clinical h1
        · rintro ⟨h1, _⟩
          simp at h1
    | some kg =>
        cases hde : driverErr with
        | some e => simp [create_medcp_server, hkg, hde] at hok
        | none =>
            simp only [create_medcp_server, hkg, hde, Except.ok.injEq] at hok
            constructor
            · intro _
              exact ⟨rfl, rfl⟩
            · intro _
              rw [← hok]
              constructor <;>
                · apply List.mem_append_left
                  simp [graphToolNames]
  · intro e hkg hde
    obtain ⟨kg, hk⟩ := Option.isSome_iff_exists.mp hkg
    simp [create_medcp_server, hk, hde]

/-- C5 witness: with a config present and driver failure `boom`, server
construction raises the initialization `ToolError`; with the same config and
a successful driver construction, both graph tools are registered in the
returned server. -/
theorem C5_graph_tools_registration_witness :
    create_medcp_server ⟨some kgCfgEx, none, "", "INFO"⟩ (some "boom") =
      .error ⟨"Knowledge graph initialization failed: boom"⟩ ∧
    ((_format_namespace "" ++ "get_knowledge_graph_schema") ∈
        (ServerModel.mk (graphToolNames (_format_namespace "") ++ [])).tools ∧
     (_format_namespace "" ++ "query_knowledge_graph") ∈
        (ServerModel.mk (graphToolNames (_format_namespace "") ++ [])).tools) := by
  constructor
  · exact (C5_graph_tools_registration ⟨some kgCfgEx, none, "", "INFO"⟩
      (some "boom")).2 "boom" rfl rfl
  · exact ((C5_graph_tools_registration ⟨some kgCfgEx, none, "", "INFO"⟩
      none).1 ⟨graphToolNames (_format_namespace "") ++ []⟩ rfl).mpr ⟨rfl, rfl⟩

/-- C9: when neither a knowledge-graph backend nor a clinical-records
backend is configured (all required fields absent), `main` raises the
configuration `ValueError` and no server is constructed — regardless of the
driver oracle, the optional graph database name, the namespace and the log
level. -/
theorem C9_no_backend_configured (driverErr : Option String)
    (knowledge_graph_database : Option String) (namespace_ log_level : String) :
    main driverErr none none none knowledge_graph_database
      none none none none namespace_ log_level =
      .error (.valueError
        "At least one database (knowledge graph or clinical records) must be configured") :=
  rfl

end MedCP
